import Mathlib

/-!
Verification of the client-side session lifecycle and request pipeline of the
Evangadi-Forum repository.

The definitions below are a shallow embedding of:
- `src/client/src/context/UserProvider.jsx` (session state, timers, refresh
  single-flight, login/register/logout operations);
- `src/client/src/API/axios.js` (response-error classification and the
  `retryRequest` retry loop, plus the `useAuth` local registration validation).

Timers are modelled by their scheduled absolute fire time (`Option Nat`,
milliseconds); `clearTimeout` followed by `setTimeout` is replacement of that
option. `Date.now()` is passed explicitly as a `now : Nat` argument at each
point the source reads the clock.
-/

namespace EvangadiForum

/-- The state owned by `UserProvider` (UserProvider.jsx lines 15-24), together
with the two localStorage keys it reads and writes.  `refreshTimer` and
`activityTimer` model `refreshTimeoutRef`/`activityTimeoutRef` as the absolute
time (ms) at which the pending `setTimeout` callback would fire; `none` means
no timer is scheduled. -/
structure ProviderState where
  token : Option String
  refreshTokenStored : Option String
  user : Option String
  sessionExpiry : Option Nat
  lastActivity : Nat
  refreshTimer : Option Nat
  activityTimer : Option Nat
deriving DecidableEq, Repr

/-- `updateActivity` (UserProvider.jsx lines 27-29): `setLastActivity(Date.now())`
and nothing else. -/
def updateActivity (s : ProviderState) (now : Nat) : ProviderState :=
  { s with lastActivity := now }

/-- `scheduleTokenRefresh(delay)` (UserProvider.jsx lines 74-82): clears any
pending refresh timer and schedules one after `Math.max(delay - 60000, 0)` ms.
`delay` is an `Int` because the source computes `delay - 60000` before the
`Math.max` clamp. -/
def scheduleTokenRefresh (s : ProviderState) (now : Nat) (delay : Int) : ProviderState :=
  { s with refreshTimer := some (now + (max (delay - 60000) 0).toNat) }

/-- `scheduleActivityTimeout()` (UserProvider.jsx lines 91-100): clears any
pending inactivity timer and schedules the forced-logout callback after
`30 * 60 * 1000` ms. -/
def scheduleActivityTimeout (s : ProviderState) (now : Nat) : ProviderState :=
  { s with activityTimer := some (now + 30 * 60 * 1000) }

/-- `handleLogout` (UserProvider.jsx lines 103-117): removes both stored
tokens, nulls the user and session expiry, and clears both timers. -/
def handleLogout (s : ProviderState) : ProviderState :=
  { s with token := none, refreshTokenStored := none, user := none,
           sessionExpiry := none, refreshTimer := none, activityTimer := none }

/-- `logout` (UserProvider.jsx lines 201-203): delegates to `handleLogout`. -/
def logout (s : ProviderState) : ProviderState :=
  handleLogout s

/-- Success path of `login(email, password, rememberMe)` (UserProvider.jsx
lines 143-172): stores the token, stores the refresh token only when the
server sent one (otherwise the old stored value is left in place), replaces
the user, derives `sessionExpiry` from the server's `expiresIn` (seconds),
then schedules the token refresh and the activity timeout. -/
def login (s : ProviderState) (now : Nat) (tok : String) (rTok : Option String)
    (usr : String) (expiresIn : Nat) : ProviderState :=
  let s1 : ProviderState :=
    { s with token := some tok,
             refreshTokenStored := match rTok with
               | some r => some r
               | none => s.refreshTokenStored,
             user := some usr,
             sessionExpiry := some (now + expiresIn * 1000) }
  scheduleActivityTimeout (scheduleTokenRefresh s1 now ((expiresIn : Int) * 1000)) now

/-- Success path of `register(username, email, password)` in the provider
(UserProvider.jsx lines 175-198): stores the token, replaces the user, derives
`sessionExpiry` from `expiresIn`, schedules both timers. -/
def registerProvider (s : ProviderState) (now : Nat) (tok : String)
    (usr : String) (expiresIn : Nat) : ProviderState :=
  let s1 : ProviderState :=
    { s with token := some tok, user := some usr,
             sessionExpiry := some (now + expiresIn * 1000) }
  scheduleActivityTimeout (scheduleTokenRefresh s1 now ((expiresIn : Int) * 1000)) now

/-- `loginWithTokens(token, refreshToken, userData)` (UserProvider.jsx lines
120-140): stores the tokens, replaces the user, sets `sessionExpiry` to a
fixed `Date.now() + 15 * 60 * 1000` ("15 minutes default") and schedules only
the activity timeout — no token-refresh timer. -/
def loginWithTokens (s : ProviderState) (now : Nat) (tok : String)
    (rTok : Option String) (usr : String) : ProviderState :=
  let s1 : ProviderState :=
    { s with token := some tok,
             refreshTokenStored := match rTok with
               | some r => some r
               | none => s.refreshTokenStored,
             user := some usr,
             sessionExpiry := some (now + 15 * 60 * 1000) }
  scheduleActivityTimeout s1 now

/-- Success path of the async body of `refreshToken` (UserProvider.jsx lines
43-57): stores the new token, replaces the user, derives `sessionExpiry` from
the fresh `expiresIn` and reschedules only the token-refresh timer. -/
def refreshSuccess (s : ProviderState) (now : Nat) (tok : String)
    (usr : String) (expiresIn : Nat) : ProviderState :=
  let s1 : ProviderState :=
    { s with token := some tok, user := some usr,
             sessionExpiry := some (now + expiresIn * 1000) }
  scheduleTokenRefresh s1 now ((expiresIn : Int) * 1000)

/-- Success path of `initializeAuth`'s `/auth/verify` call (UserProvider.jsx
lines 221-245): replaces the user, derives `sessionExpiry` from `expiresIn`,
schedules both timers. -/
def verifySuccess (s : ProviderState) (now : Nat) (usr : String)
    (expiresIn : Nat) : ProviderState :=
  let s1 : ProviderState :=
    { s with user := some usr, sessionExpiry := some (now + expiresIn * 1000) }
  scheduleActivityTimeout (scheduleTokenRefresh s1 now ((expiresIn : Int) * 1000)) now

/-- The DOM activity listener `handleActivity` (UserProvider.jsx lines
264-267): calls `updateActivity()` then `scheduleActivityTimeout()`. -/
def handleActivity (s : ProviderState) (now : Nat) : ProviderState :=
  scheduleActivityTimeout (updateActivity s now) now

/-- The all-fields-empty provider state (fresh client, nothing stored). -/
def initialProviderState : ProviderState :=
  { token := none, refreshTokenStored := none, user := none,
    sessionExpiry := none, lastActivity := 0, refreshTimer := none,
    activityTimer := none }

/-! ### Single-flight refresh (UserProvider.jsx lines 19, 24, 32-71)

`refreshToken` guards with `if (isRefreshing && refreshPromiseRef.current)`.
`isRefreshing` is React `useState` state: a `setIsRefreshing(true)` call does
not change the value captured by the callback's closure until React commits a
re-render; `refreshPromiseRef` is a `useRef` and is updated synchronously.
The model keeps both the committed (rendered) value of `isRefreshing` that the
closure reads and the pending value passed to the latest `setIsRefreshing`,
plus the promise ref (promise identity as a `Nat`) and a count of `/auth/refresh`
network requests started. -/

structure RefreshState where
  isRefreshingRendered : Bool
  isRefreshingPending : Bool
  refreshPromise : Option Nat
  requestsStarted : Nat
deriving DecidableEq, Repr

/-- One call to `refreshToken()` (UserProvider.jsx lines 32-71), followed up
to the first `await` of its async body: if the guard
`isRefreshing && refreshPromiseRef.current` passes, the stored in-flight
promise is returned and nothing else happens; otherwise a new async body
starts (it calls `setIsRefreshing(true)` and issues the `/auth/refresh` POST
before suspending) and the new promise is stored in the ref and returned.
The returned `Nat` is the identity of the promise handed to the caller. -/
def refreshTokenCall (s : RefreshState) (newPromiseId : Nat) : RefreshState × Nat :=
  if s.isRefreshingRendered ∧ s.refreshPromise.isSome then
    (s, s.refreshPromise.getD 0)
  else
    ({ s with isRefreshingPending := true,
              refreshPromise := some newPromiseId,
              requestsStarted := s.requestsStarted + 1 }, newPromiseId)

/-- A React render commit: the value captured by freshly created closures
becomes the latest value passed to `setIsRefreshing`. -/
def reactRenderCommit (s : RefreshState) : RefreshState :=
  { s with isRefreshingRendered := s.isRefreshingPending }

/-- Idle logged-in refresh state: no refresh in flight, nothing pending. -/
def initialRefreshState : RefreshState :=
  { isRefreshingRendered := false, isRefreshingPending := false,
    refreshPromise := none, requestsStarted := 0 }

/-! ### `retryRequest` (axios.js lines 243-267) -/

/-- A thrown JavaScript value as `retryRequest` can surface it: either an
`Error` carrying a message, or `undefined` (the value of the never-assigned
`lastError` variable when the loop body did not run). -/
inductive JsThrown where
  | err (msg : String)
  | undef
deriving DecidableEq, Repr

/-- What one run of `retryRequest` did: the settled outcome, how many times
the wrapped operation was invoked, and the list of back-off sleeps (ms) in
order. -/
structure RetryOutcome (α : Type) where
  result : Except JsThrown α
  invocations : Nat
  delays : List Nat
deriving Repr

/-- `true` when `needle` occurs as a contiguous substring of the character
list `hay` (JavaScript `String.prototype.includes`). -/
def containsSub (needle : List Char) : List Char → Bool
  | [] => needle.isEmpty
  | c :: t => needle.isPrefixOf (c :: t) || containsSub needle t

/-- The non-retryable classification of `retryRequest` (axios.js lines
253-255): the error message includes `"Authentication"`, `"Access denied"`
or `"validation"`. -/
def isTerminalError (msg : String) : Bool :=
  containsSub "Authentication".toList msg.toList ||
  containsSub "Access denied".toList msg.toList ||
  containsSub "validation".toList msg.toList

/-- The `for (let attempt = 1; attempt <= maxRetries; attempt++)` loop of
`retryRequest` (axios.js lines 246-266), written as a countdown:
`remaining` is the number of attempts still allowed including the current one
(`remaining = maxRetries - attempt + 1`), `attempt` the 1-based attempt
number.  An operation is a function from the attempt number to its outcome.
On success the value is returned.  On a terminal error the error is rethrown
at once.  On a transient error with attempts left the loop sleeps
`delay * attempt` ms and retries; on the last attempt the loop exits and the
final `throw lastError` rethrows this same error (source also rethrows the
terminal error on the last attempt, with the same result).  `remaining = 0`
means the loop body never ran, so `throw lastError` throws `undefined`. -/
def retryLoop (op : Nat → Except String α) (delay : Nat) :
    (remaining : Nat) → (attempt : Nat) → RetryOutcome α
  | 0, _ => ⟨Except.error JsThrown.undef, 0, []⟩
  | r + 1, attempt =>
    match op attempt with
    | Except.ok v => ⟨Except.ok v, 1, []⟩
    | Except.error msg =>
      if isTerminalError msg then ⟨Except.error (JsThrown.err msg), 1, []⟩
      else
        match r with
        | 0 => ⟨Except.error (JsThrown.err msg), 1, []⟩
        | r' + 1 =>
          let rest := retryLoop op delay (r' + 1) (attempt + 1)
          ⟨rest.result, rest.invocations + 1, delay * attempt :: rest.delays⟩

/-- `retryRequest(requestFn, maxRetries = 3, delay = 1000)` (axios.js lines
243-267).  `maxRetries` is an `Int`: with any value below 1 the loop runs the
body zero times and `throw lastError` throws the `undefined` value. -/
def retryRequest (op : Nat → Except String α) (maxRetries : Int) (delay : Nat) :
    RetryOutcome α :=
  retryLoop op delay maxRetries.toNat 1

/-! ### Response-error classification (axios.js lines 125-239) -/

/-- The body the failed response carried (`response.data`): the optional
validation-error map already flattened to its list of messages
(`Object.values(errors).flat()`), and the optional server message. -/
structure RespData where
  errors : Option (List String)
  message : Option String
deriving DecidableEq, Repr

/-- The HTTP response attached to an axios error, when one exists. -/
structure HttpResponse where
  status : Nat
  data : RespData
deriving DecidableEq, Repr

/-- The error object reaching the response interceptor's rejection handler:
`error.status` and `error.retryAfter` are set only on the synthetic
rate-limit error thrown by the request interceptor; `error.response` is the
HTTP response when the server answered. -/
structure AxiosErr where
  status : Option Nat
  retryAfter : Option Nat
  response : Option HttpResponse
deriving DecidableEq, Repr

/-- The kinds of `sessionManager.logSecurityEvent` calls the response-error
handler can make. -/
inductive EventKind where
  | rateLimitExceeded
  | unauthorizedAccess
  | accessForbidden
  | csrfTokenMismatch
  | serverError
  | networkError
deriving DecidableEq, Repr

/-- Everything observable the response-error handler does: the message of the
`Error` it rejects with, the security events it emits (in order), and its
side effects (clearing `sessionManager.currentSession`, removing the two
localStorage tokens, assigning `window.location.href = '/login'`,
regenerating the CSRF token). -/
structure ErrOutcome where
  message : String
  events : List EventKind
  sessionCleared : Bool
  tokensCleared : Bool
  navigatedToLogin : Bool
  csrfRegenerated : Bool
deriving DecidableEq, Repr

/-- JavaScript string interpolation of a possibly-undefined value
(template literal `${error.retryAfter}`). -/
def renderOptNat : Option Nat → String
  | some n => toString n
  | none => "undefined"

/-- No reject effects: helper for table rows that only classify. -/
def plainReject (msg : String) (events : List EventKind) : ErrOutcome :=
  { message := msg, events := events, sessionCleared := false,
    tokensCleared := false, navigatedToLogin := false, csrfRegenerated := false }

/-- The rejection handler of `axiosInstance.interceptors.response` (axios.js
lines 125-239), by source order: `error.status === 429`; then, each testing
`response?.status`: 401 (clear session and tokens, navigate to `/login`
unless the current path already contains it), 403, 404, 419 (regenerate the
CSRF token), `>= 500`; then `!response` network error; then 422 with a truthy
`response.data?.errors` (any array, joined with `", "`); then a truthy
(nonempty) `response?.data?.message`; else the generic fallback.
`onLoginPage` models `window.location.pathname.includes('/login')`. -/
def handleResponseError (onLoginPage : Bool) (e : AxiosErr) : ErrOutcome :=
  if e.status = some 429 then
    plainReject ("Rate limit exceeded. Try again in " ++ renderOptNat e.retryAfter
      ++ " seconds.") [EventKind.rateLimitExceeded]
  else
    match e.response with
    | some r =>
      if r.status = 401 then
        { message := "Authentication required",
          events := [EventKind.unauthorizedAccess],
          sessionCleared := true, tokensCleared := true,
          navigatedToLogin := !onLoginPage, csrfRegenerated := false }
      else if r.status = 403 then
        plainReject "Access denied" [EventKind.accessForbidden]
      else if r.status = 404 then
        plainReject "Resource not found" []
      else if r.status = 419 then
        { message := "Security token expired. Please try again.",
          events := [EventKind.csrfTokenMismatch],
          sessionCleared := false, tokensCleared := false,
          navigatedToLogin := false, csrfRegenerated := true }
      else if 500 ≤ r.status then
        plainReject "Server error. Please try again later." [EventKind.serverError]
      else if r.status = 422 ∧ r.data.errors.isSome then
        plainReject (String.intercalate ", " (r.data.errors.getD [])) []
      else
        match r.data.message with
        | some m =>
          if m = "" then plainReject "An unexpected error occurred" []
          else plainReject m []
        | none => plainReject "An unexpected error occurred" []
    | none =>
      plainReject "Network error. Please check your connection." [EventKind.networkError]

/-! ### Local registration validation (`useAuth.register`, axios.js source
chunk lines 456-497)

`useAuth.register` imports `isValidEmail` and `validatePassword` from
`src/client/src/utils/auth.js`, a file absent from the sources; both are
modelled from the spec.  The order and messages of the checks themselves are
taken from the `useAuth.register` source. -/

/-- Splits a character list on a separator character; the result always has
one more part than there are separator occurrences. -/
def splitOnChar (c : Char) : List Char → List (List Char)
  | [] => [[]]
  | x :: xs =>
    match splitOnChar c xs with
    | [] => [[]]
    | h :: t => if x = c then [] :: h :: t else (x :: h) :: t

/-- Modelled from the spec: the email-format predicate `isValidEmail` of the
missing `utils/auth.js`.  The spec fixes only "validates email format", so
the predicate accepts a single `@` with a nonempty name before it and a
domain containing at least one `.` with nonempty labels, no spaces. -/
def isValidEmail (s : String) : Bool :=
  match splitOnChar '@' s.toList with
  | [name, domain] =>
    match splitOnChar '.' domain with
    | [] => false
    | [_] => false
    | ps => !name.isEmpty && ps.all (fun p => !p.isEmpty) &&
        s.toList.all (fun c => c != ' ')
  | _ => false

/-- Result shape of `validatePassword`: a validity flag and the list of
policy-violation messages. -/
structure PasswordValidation where
  isValid : Bool
  errors : List String
deriving DecidableEq, Repr

/-- Modelled from the spec: `validatePassword` of the missing
`utils/auth.js`.  The spec fixes "password strength (configurable minimum:
length, character-class requirements)" with all violations reported, so the
model requires at least 8 characters, an uppercase letter, a lowercase
letter and a digit, collecting one message per violated rule. -/
def validatePassword (p : String) : PasswordValidation :=
  let errs :=
    (if p.toList.length < 8 then ["Password must be at least 8 characters long"] else []) ++
    (if p.toList.any Char.isUpper then [] else ["Password must contain an uppercase letter"]) ++
    (if p.toList.any Char.isLower then [] else ["Password must contain a lowercase letter"]) ++
    (if p.toList.any Char.isDigit then [] else ["Password must contain a number"])
  ⟨errs.isEmpty, errs⟩

/-- The local validation chain of `useAuth.register` (source order): all
fields present, email format, password strength (errors joined with `", "`),
password/confirmation equality, username length at least 3.  Returns the
message of the first failing check, `none` when all pass. -/
def registerLocalValidation (username email password confirmPassword : String) :
    Option String :=
  if username = "" ∨ email = "" ∨ password = "" ∨ confirmPassword = "" then
    some "All fields are required"
  else if !isValidEmail email then
    some "Please enter a valid email address"
  else if !(validatePassword password).isValid then
    some (String.intercalate ", " (validatePassword password).errors)
  else if password ≠ confirmPassword then
    some "Passwords do not match"
  else if username.toList.length < 3 then
    some "Username must be at least 3 characters long"
  else
    none

/-- `useAuth.register` up to its network boundary: the first component is the
local validation outcome, the second records whether `contextRegister` (the
`POST /auth/register` path) was reached — it is reached exactly when every
local check passed. -/
def registerCall (username email password confirmPassword : String) :
    Option String × Bool :=
  match registerLocalValidation username email password confirmPassword with
  | some e => (some e, false)
  | none => (none, true)

/-! ### Concrete test vectors -/

/-- An operation that fails with a transient (network) error on attempts 1
and 2 and succeeds on attempt 3. -/
def opFailTwice : Nat → Except String Nat := fun n =>
  if 3 ≤ n then Except.ok 42
  else Except.error "Network error. Please check your connection."

/-- An operation that always fails with the interceptor's 401 message. -/
def opAuthFail : Nat → Except String Nat := fun _ =>
  Except.error "Authentication required"

/-- A logged-in provider state whose inactivity timer is scheduled to fire
at t = 100 ms. -/
def c2State : ProviderState :=
  { token := some "t", refreshTokenStored := none, user := some "u",
    sessionExpiry := some 500000, lastActivity := 0,
    refreshTimer := some 400000, activityTimer := some 100 }

/-! ## Helper lemmas about the retry loop -/

theorem retryLoop_ok (op : Nat → Except String α) (delay r attempt : Nat) (v : α)
    (h : op attempt = Except.ok v) :
    retryLoop op delay (r + 1) attempt = ⟨Except.ok v, 1, []⟩ := by
  unfold retryLoop
  rw [h]

theorem retryLoop_terminal (op : Nat → Except String α) (delay r attempt : Nat)
    (msg : String) (h : op attempt = Except.error msg)
    (ht : isTerminalError msg = true) :
    retryLoop op delay (r + 1) attempt = ⟨Except.error (JsThrown.err msg), 1, []⟩ := by
  unfold retryLoop
  rw [h]
  simp [ht]

theorem retryLoop_lastFail (op : Nat → Except String α) (delay attempt : Nat)
    (msg : String) (h : op attempt = Except.error msg)
    (ht : isTerminalError msg = false) :
    retryLoop op delay 1 attempt = ⟨Except.error (JsThrown.err msg), 1, []⟩ := by
  unfold retryLoop
  rw [h]
  simp [ht]

theorem retryLoop_again (op : Nat → Except String α) (delay r attempt : Nat)
    (msg : String) (h : op attempt = Except.error msg)
    (ht : isTerminalError msg = false) :
    retryLoop op delay (r + 2) attempt
      = ⟨(retryLoop op delay (r + 1) (attempt + 1)).result,
         (retryLoop op delay (r + 1) (attempt + 1)).invocations + 1,
         delay * attempt :: (retryLoop op delay (r + 1) (attempt + 1)).delays⟩ := by
  conv_lhs => unfold retryLoop
  rw [h]
  simp [ht]

theorem retryLoop_invocations_le (op : Nat → Except String α) (delay : Nat) :
    ∀ r attempt, (retryLoop op delay r attempt).invocations ≤ r := by
  intro r
  induction r with
  | zero => intro attempt; simp [retryLoop]
  | succ n ih =>
    intro attempt
    cases hop : op attempt with
    | ok v => rw [retryLoop_ok op delay n attempt v hop]; simp
    | error msg =>
      by_cases ht : isTerminalError msg
      · rw [retryLoop_terminal op delay n attempt msg hop ht]; simp
      · cases n with
        | zero =>
          rw [retryLoop_lastFail op delay attempt msg hop (by simpa using ht)]
        | succ n' =>
          have h := ih (attempt + 1)
          rw [retryLoop_again op delay n' attempt msg hop (by simpa using ht)]
          simpa using h

theorem retryLoop_invocations_pos (op : Nat → Except String α) (delay : Nat)
    (r attempt : Nat) (hr : 1 ≤ r) :
    1 ≤ (retryLoop op delay r attempt).invocations := by
  cases r with
  | zero => omega
  | succ n =>
    cases hop : op attempt with
    | ok v => rw [retryLoop_ok op delay n attempt v hop]
    | error msg =>
      by_cases ht : isTerminalError msg
      · rw [retryLoop_terminal op delay n attempt msg hop ht]
      · cases n with
        | zero =>
          rw [retryLoop_lastFail op delay attempt msg hop (by simpa using ht)]
        | succ n' =>
          rw [retryLoop_again op delay n' attempt msg hop (by simpa using ht)]
          simp

theorem retryLoop_delays_eq (op : Nat → Except String α) (delay : Nat) :
    ∀ r attempt, (retryLoop op delay r attempt).delays
      = (List.range ((retryLoop op delay r attempt).invocations - 1)).map
          (fun k => delay * (attempt + k)) := by
  intro r
  induction r with
  | zero => intro attempt; simp [retryLoop]
  | succ n ih =>
    intro attempt
    cases hop : op attempt with
    | ok v => rw [retryLoop_ok op delay n attempt v hop]; simp
    | error msg =>
      by_cases ht : isTerminalError msg
      · rw [retryLoop_terminal op delay n attempt msg hop ht]; simp
      · cases n with
        | zero =>
          rw [retryLoop_lastFail op delay attempt msg hop (by simpa using ht)]
          simp
        | succ n' =>
          have hpos := retryLoop_invocations_pos op delay (n' + 1) (attempt + 1) (by omega)
          obtain ⟨m, hm⟩ : ∃ m,
              (retryLoop op delay (n' + 1) (attempt + 1)).invocations = m + 1 :=
            ⟨_, (Nat.succ_pred_eq_of_pos hpos).symm⟩
          have hd := ih (attempt + 1)
          rw [retryLoop_again op delay n' attempt msg hop (by simpa using ht)]
          dsimp only
          rw [hd, hm]
          simp only [Nat.add_sub_cancel, List.range_succ_eq_map, List.map_cons,
            List.map_map, Nat.add_zero, List.cons.injEq]
          refine ⟨trivial, ?_⟩
          apply List.map_congr_left
          intro k _
          simp only [Function.comp_apply]
          congr 1
          omega

theorem retryLoop_allFail (delay : Nat) (f : Nat → String)
    (hf : ∀ k, isTerminalError (f k) = false) :
    ∀ r attempt,
      (retryLoop (fun k => (Except.error (f k) : Except String α)) delay (r + 1) attempt).result
        = Except.error (JsThrown.err (f (attempt + r))) := by
  intro r
  induction r with
  | zero =>
    intro attempt
    rw [retryLoop_lastFail _ delay attempt (f attempt) rfl (hf attempt)]
    simp
  | succ n ih =>
    intro attempt
    have h := ih (attempt + 1)
    have harith : attempt + (n + 1) = attempt + 1 + n := by omega
    rw [retryLoop_again _ delay n attempt (f attempt) rfl (hf attempt)]
    dsimp only
    rw [harith]
    exact h


end EvangadiForum

namespace EvangadiForum

/-! ## Claim theorems -/

/-- Claim C1 (code evaluated at the failing input): two calls to
`refreshToken()` in the same event-loop tick — the second made while the
first one's `/auth/refresh` request is still in flight and before React has
committed the `setIsRefreshing(true)` update — start two network requests
and hand the two callers two different promises, because the guard
`isRefreshing && refreshPromiseRef.current` reads the stale rendered
`isRefreshing` value.  The last conjunct shows the deduplication the guard
was written for does work once a render has committed. -/
theorem c1_refresh_singleflight_two_requests :
    (refreshTokenCall (refreshTokenCall initialRefreshState 1).1 2).1.requestsStarted = 2 ∧
    (refreshTokenCall initialRefreshState 1).2
      ≠ (refreshTokenCall (refreshTokenCall initialRefreshState 1).1 2).2 ∧
    (refreshTokenCall initialRefreshState 1).1.refreshPromise.isSome = true ∧
    (refreshTokenCall (reactRenderCommit (refreshTokenCall initialRefreshState 1).1) 3).1.requestsStarted = 1 := by
  decide

/-- Claim C2, counterexample: `updateActivity()` invoked at T = 50 on a state
whose inactivity timer is scheduled for t = 100 records the new activity time
but leaves the timer at 100; it does not reschedule it to T + 30 minutes. -/
theorem c2_update_activity_counterexample :
    (updateActivity c2State 50).lastActivity = 50 ∧
    (updateActivity c2State 50).activityTimer = some 100 ∧
    (updateActivity c2State 50).activityTimer ≠ some (50 + 30 * 60 * 1000) := by
  decide

/-- Claim C2 as amended: `updateActivity()` at time T only records T as the
last-activity timestamp and touches neither timer; the rescheduling of the
forced-logout timer to T + 30 minutes (cancelling any prior schedule) is done
by `scheduleActivityTimeout()`, which the DOM activity listener invokes
together with `updateActivity`. -/
theorem c2_update_activity_amended (s : ProviderState) (now : Nat) :
    (updateActivity s now).lastActivity = now ∧
    (updateActivity s now).activityTimer = s.activityTimer ∧
    (updateActivity s now).refreshTimer = s.refreshTimer ∧
    (handleActivity s now).lastActivity = now ∧
    (handleActivity s now).activityTimer = some (now + 30 * 60 * 1000) :=
  ⟨rfl, rfl, rfl, rfl, rfl⟩

/-- Claim C3: the proactive refresh is scheduled `max(expiresIn - 60, 0)`
seconds after issuance: for `expiresIn > 60` the timer fires exactly
`(expiresIn - 60)` seconds (in ms) after `now`, and for `expiresIn ≤ 60` it
fires immediately (delay 0). -/
theorem c3_scheduled_refresh_delay (s : ProviderState) (now : Nat) (expiresIn : Nat) :
    (60 < expiresIn →
      (scheduleTokenRefresh s now ((expiresIn : Int) * 1000)).refreshTimer
        = some (now + (expiresIn - 60) * 1000)) ∧
    (expiresIn ≤ 60 →
      (scheduleTokenRefresh s now ((expiresIn : Int) * 1000)).refreshTimer = some now) := by
  constructor
  · intro h
    simp only [scheduleTokenRefresh]
    congr 1
    omega
  · intro h
    simp only [scheduleTokenRefresh]
    congr 1
    omega

/-- Witness for C3 at `expiresIn = 900` (fires at 840 s) and
`expiresIn = 30` (fires immediately). -/
theorem c3_scheduled_refresh_delay_witness :
    (scheduleTokenRefresh initialProviderState 0 ((900 : Int) * 1000)).refreshTimer
      = some (0 + (900 - 60) * 1000) ∧
    (scheduleTokenRefresh initialProviderState 0 ((30 : Int) * 1000)).refreshTimer
      = some 0 :=
  ⟨(c3_scheduled_refresh_delay initialProviderState 0 900).1 (by decide),
   (c3_scheduled_refresh_delay initialProviderState 0 30).2 (by decide)⟩

end EvangadiForum

namespace EvangadiForum

/-- Claim C7: `logout()` is idempotent and total: from every starting state
(including one with no active session) it clears both stored tokens, the
user, the session expiry and both timers, and applying it twice gives the
same cleared state; the operation has no failure path. -/
theorem c7_logout_idempotent (s : ProviderState) :
    (logout s).user = none ∧
    (logout s).token = none ∧
    (logout s).refreshTokenStored = none ∧
    (logout s).sessionExpiry = none ∧
    (logout s).refreshTimer = none ∧
    (logout s).activityTimer = none ∧
    logout (logout s) = logout s :=
  ⟨rfl, rfl, rfl, rfl, rfl, rfl, rfl⟩

/-- Claim C8, counterexample: `loginWithTokens` establishes a session whose
`sessionExpiry` is the fixed client-side default `now + 15 * 60 * 1000`
(here 900000 ms at now = 0); the operation receives no server `expiresIn` at
all, so this expiry is not derived from one.  The last conjunct contrasts it
with `login`, which does derive the expiry from the server value. -/
theorem c8_expiry_counterexample :
    (loginWithTokens initialProviderState 0 "tok" none "u").user = some "u" ∧
    (loginWithTokens initialProviderState 0 "tok" none "u").sessionExpiry = some 900000 ∧
    (login initialProviderState 0 "tok" none "u" 300).sessionExpiry = some 300000 := by
  decide

/-- Claim C8 as amended: `login`, `register`, a successful refresh and the
startup `verify` all derive `sessionExpiry` from the server-supplied
`expiresIn` at the moment of issuance; no activity-recording operation
(`updateActivity`, the DOM activity handler, `scheduleActivityTimeout`)
changes `sessionExpiry`; but `loginWithTokens` instead applies a fixed
15-minute client-side default independent of any server value. -/
theorem c8_expiry_amended (s : ProviderState) (now : Nat) (tok : String)
    (rTok : Option String) (usr : String) (expiresIn : Nat) :
    (login s now tok rTok usr expiresIn).sessionExpiry = some (now + expiresIn * 1000) ∧
    (registerProvider s now tok usr expiresIn).sessionExpiry = some (now + expiresIn * 1000) ∧
    (refreshSuccess s now tok usr expiresIn).sessionExpiry = some (now + expiresIn * 1000) ∧
    (verifySuccess s now usr expiresIn).sessionExpiry = some (now + expiresIn * 1000) ∧
    (updateActivity s now).sessionExpiry = s.sessionExpiry ∧
    (handleActivity s now).sessionExpiry = s.sessionExpiry ∧
    (scheduleActivityTimeout s now).sessionExpiry = s.sessionExpiry ∧
    (loginWithTokens s now tok rTok usr).sessionExpiry = some (now + 15 * 60 * 1000) :=
  ⟨rfl, rfl, rfl, rfl, rfl, rfl, rfl, rfl⟩

/-- Claim C9, counterexample: `loginWithTokens` establishes a session while
scheduling only the inactivity timer; the proactive refresh timer is left
unscheduled (`none` from the initial state). -/
theorem c9_timers_counterexample :
    (loginWithTokens initialProviderState 0 "tok" none "u").user = some "u" ∧
    (loginWithTokens initialProviderState 0 "tok" none "u").activityTimer = some 1800000 ∧
    (loginWithTokens initialProviderState 0 "tok" none "u").refreshTimer = none := by
  decide

/-- Claim C9 as amended: `login`, `register` and the startup `verify`
schedule the refresh timer and the inactivity timer together, and `logout`
cancels both together; but `loginWithTokens` schedules only the inactivity
timer (leaving the refresh timer untouched), and a successful refresh
reschedules only the refresh timer (leaving the inactivity timer
untouched). -/
theorem c9_timers_amended (s : ProviderState) (now : Nat) (tok : String)
    (rTok : Option String) (usr : String) (expiresIn : Nat) :
    ((login s now tok rTok usr expiresIn).refreshTimer.isSome = true ∧
      (login s now tok rTok usr expiresIn).activityTimer = some (now + 30 * 60 * 1000)) ∧
    ((registerProvider s now tok usr expiresIn).refreshTimer.isSome = true ∧
      (registerProvider s now tok usr expiresIn).activityTimer = some (now + 30 * 60 * 1000)) ∧
    ((verifySuccess s now usr expiresIn).refreshTimer.isSome = true ∧
      (verifySuccess s now usr expiresIn).activityTimer = some (now + 30 * 60 * 1000)) ∧
    ((logout s).refreshTimer = none ∧ (logout s).activityTimer = none) ∧
    ((loginWithTokens s now tok rTok usr).activityTimer = some (now + 30 * 60 * 1000) ∧
      (loginWithTokens s now tok rTok usr).refreshTimer = s.refreshTimer) ∧
    ((refreshSuccess s now tok usr expiresIn).refreshTimer.isSome = true ∧
      (refreshSuccess s now tok usr expiresIn).activityTimer = s.activityTimer) :=
  ⟨⟨rfl, rfl⟩, ⟨rfl, rfl⟩, ⟨rfl, rfl⟩, ⟨rfl, rfl⟩, ⟨rfl, rfl⟩, ⟨rfl, rfl⟩⟩

/-- Claim C10: `retryRequest` with `maxRetries < 1` never invokes the wrapped
operation and rejects by throwing the `undefined` value of the never-assigned
`lastError` variable, not an `Error` object. -/
theorem c10_retry_zero_attempts (α : Type) (op : Nat → Except String α)
    (delay : Nat) (m : Int) (h : m < 1) :
    (retryRequest op m delay).invocations = 0 ∧
    (retryRequest op m delay).result = Except.error JsThrown.undef := by
  have hm : m.toNat = 0 := by omega
  unfold retryRequest
  rw [hm]
  exact ⟨rfl, rfl⟩

/-- Claim C5: for `retryRequest` at its defaults `maxAttempts = 3`,
`baseDelay = 1000` ms: (1) the operation is invoked at most 3 times;
(2) the sleep before attempt k+1 is `baseDelay * k` (linear backoff);
(3) an operation failing twice with a transient error and succeeding on the
3rd attempt returns the success, was invoked exactly 3 times, and slept
1000 ms then 2000 ms; (4) an operation whose first throw carries an
authentication / access-denied / validation message is invoked exactly once
and its error is rethrown unchanged with no retry and no sleep; (5) the
always-"Authentication required" operation concretely does so; (6) when
every attempt fails with a transient error, the error of the last (3rd)
attempt is surfaced unchanged. -/
theorem c5_retry_policy :
    (∀ (α : Type) (op : Nat → Except String α),
      (retryRequest op 3 1000).invocations ≤ 3) ∧
    (∀ (α : Type) (op : Nat → Except String α),
      (retryRequest op 3 1000).delays
        = (List.range ((retryRequest op 3 1000).invocations - 1)).map
            (fun k => 1000 * (1 + k))) ∧
    ((retryRequest opFailTwice 3 1000).result = Except.ok 42 ∧
      (retryRequest opFailTwice 3 1000).invocations = 3 ∧
      (retryRequest opFailTwice 3 1000).delays = [1000, 2000]) ∧
    (∀ (α : Type) (op : Nat → Except String α) (msg : String),
      op 1 = Except.error msg → isTerminalError msg = true →
      retryRequest op 3 1000 = ⟨Except.error (JsThrown.err msg), 1, []⟩) ∧
    ((retryRequest opAuthFail 3 1000).result
        = Except.error (JsThrown.err "Authentication required") ∧
      (retryRequest opAuthFail 3 1000).invocations = 1) ∧
    (∀ (α : Type) (f : Nat → String), (∀ k, isTerminalError (f k) = false) →
      (retryRequest (fun k => (Except.error (f k) : Except String α)) 3 1000).result
        = Except.error (JsThrown.err (f 3))) := by
  refine ⟨?_, ?_, ⟨rfl, rfl, rfl⟩, ?_, ⟨rfl, rfl⟩, ?_⟩
  · intro α op
    exact retryLoop_invocations_le op 1000 3 1
  · intro α op
    exact retryLoop_delays_eq op 1000 3 1
  · intro α op msg h ht
    exact retryLoop_terminal op 1000 2 1 msg h ht
  · intro α f hf
    exact retryLoop_allFail 1000 f hf 2 1

/-- Witness for C5: the terminal-error row applied to the concrete
always-"Authentication required" operation, and the exhaustion row applied
to an operation that always fails with the 500-classification message. -/
theorem c5_retry_policy_witness :
    retryRequest opAuthFail 3 1000
      = ⟨Except.error (JsThrown.err "Authentication required"), 1, []⟩ ∧
    (retryRequest
        (fun k => (Except.error ((fun _ => "Server error. Please try again later.") k)
          : Except String Nat)) 3 1000).result
      = Except.error (JsThrown.err
          ((fun _ => "Server error. Please try again later.") 3)) :=
  ⟨c5_retry_policy.2.2.2.1 Nat opAuthFail "Authentication required" rfl (by decide),
   c5_retry_policy.2.2.2.2.2 Nat (fun _ => "Server error. Please try again later.")
     (fun _ => (by decide :
       isTerminalError "Server error. Please try again later." = false))⟩

/-- Witness for C10 at `maxRetries = 0`. -/
theorem c10_retry_zero_attempts_witness :
    (retryRequest (fun _ => Except.ok (0 : Nat)) 0 1000).invocations = 0 ∧
    (retryRequest (fun _ => Except.ok (0 : Nat)) 0 1000).result
      = Except.error JsThrown.undef :=
  c10_retry_zero_attempts Nat (fun _ => Except.ok 0) 1000 0 (by decide)

end EvangadiForum

namespace EvangadiForum

/-- Claim C6, counterexample: with a 2-character username and a malformed
email (and an acceptable password), the username-length rule does not win:
`useAuth.register` reports the email-format error, because the username
check runs last, not first. -/
theorem c6_register_order_counterexample :
    registerLocalValidation "ab" "bad" "Passw0rd" "Passw0rd"
      = some "Please enter a valid email address" ∧
    registerLocalValidation "ab" "bad" "Passw0rd" "Passw0rd"
      ≠ some "Username must be at least 3 characters long" := by
  decide

/-- Claim C6 as amended: local validation runs before any network call and
checks, in this order: all fields present, email format, password strength
(the error concatenating all password-policy violations with `", "`),
password/confirmation equality, and username length at least 3; the first
failure wins, and the network registration call is reached exactly when
every check passes. -/
theorem c6_register_validation_amended (u e p c : String) :
    ((u = "" ∨ e = "" ∨ p = "" ∨ c = "") →
      registerCall u e p c = (some "All fields are required", false)) ∧
    (u ≠ "" → e ≠ "" → p ≠ "" → c ≠ "" → isValidEmail e = false →
      registerCall u e p c = (some "Please enter a valid email address", false)) ∧
    (u ≠ "" → e ≠ "" → p ≠ "" → c ≠ "" → isValidEmail e = true →
      (validatePassword p).isValid = false →
      registerCall u e p c
        = (some (String.intercalate ", " (validatePassword p).errors), false)) ∧
    (u ≠ "" → e ≠ "" → p ≠ "" → c ≠ "" → isValidEmail e = true →
      (validatePassword p).isValid = true → p ≠ c →
      registerCall u e p c = (some "Passwords do not match", false)) ∧
    (u ≠ "" → e ≠ "" → p ≠ "" → c ≠ "" → isValidEmail e = true →
      (validatePassword p).isValid = true → p = c → u.toList.length < 3 →
      registerCall u e p c
        = (some "Username must be at least 3 characters long", false)) ∧
    ((registerCall u e p c).2 = true ↔ registerLocalValidation u e p c = none) := by
  refine ⟨?_, ?_, ?_, ?_, ?_, ?_⟩
  · intro h
    simp [registerCall, registerLocalValidation, h]
  · intro hu he hp hc hmail
    simp [registerCall, registerLocalValidation, hu, he, hp, hc, hmail]
  · intro hu he hp hc hmail hpw
    simp [registerCall, registerLocalValidation, hu, he, hp, hc, hmail, hpw]
  · intro hu he hp hc hmail hpw hne
    simp [registerCall, registerLocalValidation, hu, he, hp, hc, hmail, hpw, hne]
  · intro hu he hp hc hmail hpw heq hlen
    subst heq
    have hlen2 : u.length < 3 := by simpa using hlen
    simp [registerCall, registerLocalValidation, hu, he, hp, hmail, hpw, hlen2]
  · cases h : registerLocalValidation u e p c with
    | some msg => simp [registerCall, h]
    | none => simp [registerCall, h]

/-- Witness for C6 as amended: the email-format row applied at the
counterexample input, and the password row at a weak password. -/
theorem c6_register_validation_witness :
    registerCall "ab" "bad" "Passw0rd" "Passw0rd"
      = (some "Please enter a valid email address", false) ∧
    registerCall "abc" "a@b.c" "pass" "pass"
      = (some (String.intercalate ", " (validatePassword "pass").errors), false) :=
  ⟨(c6_register_validation_amended "ab" "bad" "Passw0rd" "Passw0rd").2.1
      (by decide) (by decide) (by decide) (by decide) (by decide),
   (c6_register_validation_amended "abc" "a@b.c" "pass" "pass").2.2.1
      (by decide) (by decide) (by decide) (by decide) (by decide) (by decide)⟩

end EvangadiForum

namespace EvangadiForum

/-- Claim C4: the response-error handler classifies by the first matching
rule of the priority-ordered table — 429, then 401, 403, 404, 419, >= 500,
no-response network error, 422 with field errors, other with a server
message, other generic — and rejects with the table's exact user-facing
message.  Row by row: 429 with `retryAfter = n` rejects with exactly
"Rate limit exceeded. Try again in n seconds." and emits exactly one
RATE_LIMIT_EXCEEDED event; 401 clears the session and the stored tokens,
navigates to the login path (when not already on it) and rejects with
"Authentication required"; and so on down the table, each row applying only
when the earlier rows did not match. -/
theorem c4_response_error_classification :
    (∀ (p : Bool) (e : AxiosErr) (n : Nat),
      e.status = some 429 → e.retryAfter = some n →
      handleResponseError p e
        = plainReject ("Rate limit exceeded. Try again in " ++ toString n ++ " seconds.")
            [EventKind.rateLimitExceeded]) ∧
    (∀ (p : Bool) (e : AxiosErr) (r : HttpResponse),
      e.status ≠ some 429 → e.response = some r → r.status = 401 →
      handleResponseError p e
        = { message := "Authentication required",
            events := [EventKind.unauthorizedAccess],
            sessionCleared := true, tokensCleared := true,
            navigatedToLogin := !p, csrfRegenerated := false }) ∧
    (∀ (p : Bool) (e : AxiosErr) (r : HttpResponse),
      e.status ≠ some 429 → e.response = some r → r.status = 403 →
      handleResponseError p e = plainReject "Access denied" [EventKind.accessForbidden]) ∧
    (∀ (p : Bool) (e : AxiosErr) (r : HttpResponse),
      e.status ≠ some 429 → e.response = some r → r.status = 404 →
      handleResponseError p e = plainReject "Resource not found" []) ∧
    (∀ (p : Bool) (e : AxiosErr) (r : HttpResponse),
      e.status ≠ some 429 → e.response = some r → r.status = 419 →
      handleResponseError p e
        = { message := "Security token expired. Please try again.",
            events := [EventKind.csrfTokenMismatch],
            sessionCleared := false, tokensCleared := false,
            navigatedToLogin := false, csrfRegenerated := true }) ∧
    (∀ (p : Bool) (e : AxiosErr) (r : HttpResponse),
      e.status ≠ some 429 → e.response = some r → 500 ≤ r.status →
      handleResponseError p e
        = plainReject "Server error. Please try again later." [EventKind.serverError]) ∧
    (∀ (p : Bool) (e : AxiosErr),
      e.status ≠ some 429 → e.response = none →
      handleResponseError p e
        = plainReject "Network error. Please check your connection."
            [EventKind.networkError]) ∧
    (∀ (p : Bool) (e : AxiosErr) (r : HttpResponse) (l : List String),
      e.status ≠ some 429 → e.response = some r → r.status = 422 →
      r.data.errors = some l →
      handleResponseError p e = plainReject (String.intercalate ", " l) []) ∧
    (∀ (p : Bool) (e : AxiosErr) (r : HttpResponse) (m : String),
      e.status ≠ some 429 → e.response = some r →
      r.status ≠ 401 → r.status ≠ 403 → r.status ≠ 404 → r.status ≠ 419 →
      r.status < 500 → ¬(r.status = 422 ∧ r.data.errors.isSome = true) →
      r.data.message = some m → m ≠ "" →
      handleResponseError p e = plainReject m []) ∧
    (∀ (p : Bool) (e : AxiosErr) (r : HttpResponse),
      e.status ≠ some 429 → e.response = some r →
      r.status ≠ 401 → r.status ≠ 403 → r.status ≠ 404 → r.status ≠ 419 →
      r.status < 500 → ¬(r.status = 422 ∧ r.data.errors.isSome = true) →
      (r.data.message = none ∨ r.data.message = some "") →
      handleResponseError p e = plainReject "An unexpected error occurred" []) := by
  refine ⟨?_, ?_, ?_, ?_, ?_, ?_, ?_, ?_, ?_, ?_⟩
  · intro p e n h1 h2
    simp [handleResponseError, h1, h2, renderOptNat]
  · intro p e r h1 h2 h3
    simp [handleResponseError, h1, h2, h3]
  · intro p e r h1 h2 h3
    simp [handleResponseError, h1, h2, h3]
  · intro p e r h1 h2 h3
    simp [handleResponseError, h1, h2, h3]
  · intro p e r h1 h2 h3
    simp [handleResponseError, h1, h2, h3]
  · intro p e r h1 h2 h3
    have n1 : r.status ≠ 401 := by omega
    have n2 : r.status ≠ 403 := by omega
    have n3 : r.status ≠ 404 := by omega
    have n4 : r.status ≠ 419 := by omega
    simp [handleResponseError, h1, h2, h3, n1, n2, n3, n4]
  · intro p e h1 h2
    simp [handleResponseError, h1, h2]
  · intro p e r l h1 h2 h3 h4
    simp [handleResponseError, h1, h2, h3, h4]
  · intro p e r m h1 h2 n1 n2 n3 n4 h500 h422 hmsg hne
    have h500' : ¬(500 ≤ r.status) := by omega
    simp [handleResponseError, h1, h2, n1, n2, n3, n4, h500', h422, hmsg, hne]
  · intro p e r h1 h2 n1 n2 n3 n4 h500 h422 hmsg
    have h500' : ¬(500 ≤ r.status) := by omega
    rcases hmsg with hm | hm
    · simp [handleResponseError, h1, h2, n1, n2, n3, n4, h500', h422, hm]
    · simp [handleResponseError, h1, h2, n1, n2, n3, n4, h500', h422, hm]

/-- Witness for C4: the 429 row at `retryAfter = 5` (yielding exactly
"Rate limit exceeded. Try again in 5 seconds." with one RATE_LIMIT_EXCEEDED
event) and the 401 row away from the login page (session and tokens cleared,
navigation to the login path, message "Authentication required"). -/
theorem c4_response_error_classification_witness :
    handleResponseError false { status := some 429, retryAfter := some 5, response := none }
      = plainReject ("Rate limit exceeded. Try again in " ++ toString 5 ++ " seconds.")
          [EventKind.rateLimitExceeded] ∧
    handleResponseError false
        { status := none, retryAfter := none,
          response := some { status := 401, data := { errors := none, message := none } } }
      = { message := "Authentication required",
          events := [EventKind.unauthorizedAccess],
          sessionCleared := true, tokensCleared := true,
          navigatedToLogin := !false, csrfRegenerated := false } :=
  ⟨c4_response_error_classification.1 false
      { status := some 429, retryAfter := some 5, response := none } 5 rfl rfl,
   c4_response_error_classification.2.1 false
      { status := none, retryAfter := none,
        response := some { status := 401, data := { errors := none, message := none } } }
      { status := 401, data := { errors := none, message := none } }
      (by decide) rfl rfl⟩

end EvangadiForum
